import Mathlib

/-!
Verification development for the browsebyme browser-automation core.

The JavaScript source is shallowly embedded: pure logic (selector
generation, cache scanning, command parsing, JSON repair) is translated to
executable Lean functions; live-DOM queries and other external effects are
parameters (oracles) of the embedded functions; JavaScript exceptions are
modelled with `Except`/`Option`.
-/

namespace BrowseByMe

/-! ## Character and string helpers

The JS source manipulates strings via `includes`, `toLowerCase`,
`startsWith`, `trim`, `match` and `replace`.  We model strings as
`List Char` where convenient and provide the corresponding operations.
Characters that the verification gate treats specially are produced via
`Char.ofNat`. -/

def braceOpenCh : Char := Char.ofNat 123

def braceCloseCh : Char := Char.ofNat 125

def brackOpenCh : Char := Char.ofNat 91

def brackCloseCh : Char := Char.ofNat 93

def quoteCh : Char := Char.ofNat 34

def aposCh : Char := Char.ofNat 39

def backslashCh : Char := Char.ofNat 92

def commaCh : Char := Char.ofNat 44

def colonCh : Char := Char.ofNat 58

def dotCh : Char := Char.ofNat 46

def hashCh : Char := Char.ofNat 35

def newlineCh : Char := Char.ofNat 10

/-- JS `\s` whitespace (the characters relevant to the embedded code). -/
def isWsCh (c : Char) : Bool :=
  c = Char.ofNat 32 || c = Char.ofNat 9 || c = newlineCh || c = Char.ofNat 13 ||
  c = Char.ofNat 11 || c = Char.ofNat 12

def isDigitCh (c : Char) : Bool :=
  Char.ofNat 48 ≤ c && c ≤ Char.ofNat 57

def lowerCh (c : Char) : Char := c.toLower

def lowerL (l : List Char) : List Char := l.map lowerCh

/-- `needle` occurs at the head of `hay`. -/
def startsWithL : List Char → List Char → Bool
  | _, [] => true
  | [], _ :: _ => false
  | h :: ht, n :: nt => h = n && startsWithL ht nt

/-- JS `String.prototype.includes` (substring occurrence). -/
def containsL : List Char → List Char → Bool
  | hay, needle =>
    if startsWithL hay needle then true
    else match hay with
      | [] => false
      | _ :: t => containsL t needle

/-- Case-insensitive substring test, as in
`info.text.toLowerCase().includes(selector.toLowerCase())`. -/
def containsCI (hay needle : String) : Bool :=
  containsL (lowerL hay.toList) (lowerL needle.toList)

/-- Case-sensitive substring test on strings (JS `includes`). -/
def subStr (hay needle : String) : Bool :=
  containsL hay.toList needle.toList

def containsCh (s : String) (c : Char) : Bool := s.toList.contains c

def trimL (l : List Char) : List Char :=
  ((l.dropWhile isWsCh).reverse.dropWhile isWsCh).reverse

def trimStr (s : String) : String := ⟨trimL s.toList⟩

/-! ## Element probe (`isElementVisible`, browserController.js 471-485)

The body of `isElementVisible` performs three fallible external steps:
`getSession` (throws when the session id is unknown), `page.$(selector)`
(throws on a malformed selector or detached frame, else yields an element
handle or `null`), and `element.isVisible()` (may itself throw).  A
`ProbeOutcome` records the combined outcome of those live-page calls; the
JS `try`/`catch` maps every thrown error to `false`. -/

inductive ProbeOutcome where
  | sessionErr (msg : String)
  | queryErr (msg : String)
  | notFound
  | visibleErr (msg : String)
  | found (visible : Bool)
deriving Repr, DecidableEq

/-- The `try` body of `isElementVisible`: a JS computation that can throw. -/
def isElementVisibleBody : ProbeOutcome → Except String Bool
  | .sessionErr m => .error m
  | .queryErr m => .error m
  | .notFound => .ok false
  | .visibleErr m => .error m
  | .found b => .ok b

/-- `isElementVisible`: the `catch` clause maps any thrown error to `false`. -/
def isElementVisible (o : ProbeOutcome) : Bool :=
  match isElementVisibleBody o with
  | .ok b => b
  | .error _ => false

/-! ## Element cache and page model -/

/-- A cached element entry (`elementCache.set(selector, { text })`). -/
structure CacheInfo where
  text : String
deriving Repr, DecidableEq

/-- The controller-level element cache, in `Map` insertion order. -/
abbrev Cache := List (String × CacheInfo)

/-- Outcome of the `page.evaluate` inside `analyzePageStructure`
(browserController.js 316-416): `null`, a directly usable selector string,
or the JSON blob `{tag, text, classes}` used for reconstruction. -/
inductive AnalyzeOutcome where
  | direct (sel : String)
  | data (tag text : String) (classes : List String)
deriving Repr, DecidableEq

/-- Oracle view of one live page: which probes report a visible element
(via the `isElementVisible` boundary, errors already mapped to `false`),
what the structural-analysis page scan yields, and the page title. -/
structure PageModel where
  visible : String → Bool
  analyze : String → Option AnalyzeOutcome
  pageTitle : String

/-! ## Locator heuristics (`generateAlternativeSelectors`, 492-594) -/

/-- JS `lowerSelector.match(/KW\s+(.+)/i)`: the first occurrence of `kw`
followed by at least one whitespace character and at least one further
character; the capture is everything after the whitespace run (backing off
one whitespace character when nothing else follows, as the regex engine
does).  Returns the capture after `.trim()`. -/
def matchKwRest (kw : List Char) (s : List Char) : Option String :=
  go s
where
  capture (rest : List Char) : Option (List Char) :=
    match rest with
    | [] => none
    | c :: _ =>
      if isWsCh c then
        let k := (rest.takeWhile isWsCh).length
        let stripped := rest.drop k
        if stripped ≠ [] then some stripped
        else if 2 ≤ k then some (rest.drop (k - 1))
        else none
      else none
  go : List Char → Option String
    | [] => none
    | c :: t =>
      if startsWithL (c :: t) kw then
        match capture ((c :: t).drop kw.length) with
        | some cap => some (trimStr ⟨cap⟩)
        | none => go t
      else go t

/-- `generateAlternativeSelectors(originalSelector)`
(browserController.js 492-594), translated clause by clause; the emitted
order is the probing order of resolution tier 3. -/
def generateAlternativeSelectors (originalSelector : String) : List String :=
  let ls := String.mk (lowerL originalSelector.toList)
  let part1 :=
    if subStr ls "search" || subStr ls "find" then
      ["#twotabsearchtextbox", "input[name=\"field-keywords\"]",
       "input[aria-label*=\"search\" i]"]
    else []
  let part2 :=
    if subStr ls "search button" || subStr ls "submit search" then
      ["input[value=\"Go\"]", "input.nav-input[type=\"submit\"]",
       "#nav-search-submit-button"]
    else []
  let part3 :=
    if subStr ls "button" then
      ["button", "button:visible", "[type=\"button\"]", "[role=\"button\"]",
       ".btn", ".button", "input[type=\"button\"]", "input[type=\"submit\"]"] ++
      (match matchKwRest "button".toList ls.toList with
       | some text =>
         ["button:has-text(" ++ ⟨[quoteCh]⟩ ++ text ++ ⟨[quoteCh]⟩ ++ ")",
          "[role=\"button\"]:has-text(" ++ ⟨[quoteCh]⟩ ++ text ++ ⟨[quoteCh]⟩ ++ ")",
          "button:text-is(" ++ ⟨[quoteCh]⟩ ++ text ++ ⟨[quoteCh]⟩ ++ ")"]
       | none => [])
    else []
  let part4 :=
    if subStr ls "link" || subStr ls "a " then
      ["a", "a:visible", "[href]"] ++
      (match (matchKwRest "link".toList ls.toList).orElse
             (fun _ => matchKwRest "a".toList ls.toList) with
       | some text =>
         ["a:has-text(" ++ ⟨[quoteCh]⟩ ++ text ++ ⟨[quoteCh]⟩ ++ ")",
          "a:text-is(" ++ ⟨[quoteCh]⟩ ++ text ++ ⟨[quoteCh]⟩ ++ ")"]
       | none => [])
    else []
  let part5 :=
    if subStr ls "input" || subStr ls "field" || subStr ls "text" || subStr ls "box" then
      ["input", "input:visible", "textarea", "input[type=\"text\"]"] ++
      (if subStr ls "email" then
        ["input[type=\"email\"]", "input[name*=\"email\" i]",
         "input[placeholder*=\"email\" i]"]
      else if subStr ls "password" then
        ["input[type=\"password\"]", "input[name*=\"password\" i]",
         "input[placeholder*=\"password\" i]"]
      else if subStr ls "phone" then
        ["input[type=\"tel\"]", "input[name*=\"phone\" i]",
         "input[placeholder*=\"phone\" i]"]
      else [])
    else []
  let part6 :=
    if subStr ls "search" || subStr ls ("[name=" ++ ⟨[quoteCh]⟩ ++ "q" ++ ⟨[quoteCh]⟩ ++ "]")
        || subStr ls "find" then
      ["input[type=\"search\"]", "input[name=\"q\"]",
       "input[placeholder*=\"search\" i]", "[aria-label*=\"search\" i]",
       "[name=\"field-keywords\"]", "#twotabsearchtextbox"]
    else []
  let part7 :=
    if subStr ls "submit" || subStr ls "send" || subStr ls "go" then
      ["[type=\"submit\"]", "button[type=\"submit\"]", "input[type=\"submit\"]",
       "button:has-text(\"Search\")", "button:has-text(\"Submit\")",
       "button:has-text(\"Go\")", "button:has-text(\"Send\")",
       "input[value=\"Go\"]", "#nav-search-submit-button"]
    else []
  part1 ++ part2 ++ part3 ++ part4 ++ part5 ++ part6 ++ part7

/-! ## Selector resolution engine (`findBestSelector`, 243-308) -/

/-- The free-text test guarding resolution steps 2 and 4:
`!selector.includes('.') && !selector.includes('#') && !selector.includes('[')`. -/
def isFreeText (selector : String) : Bool :=
  !(containsCh selector dotCh) && !(containsCh selector hashCh) &&
  !(containsCh selector brackOpenCh)

/-- Step 2 of `findBestSelector` (254-262): scan the element cache in
insertion order and return the first cached selector whose stored text is
truthy, contains the description case-insensitively, and currently probes
visible.  Entries failing the visibility probe are skipped, not returned. -/
def cacheScan (pm : PageModel) (selector : String) : Cache → Option String
  | [] => none
  | (cachedSelector, info) :: rest =>
    if info.text ≠ "" && containsCI info.text selector && pm.visible cachedSelector then
      some cachedSelector
    else cacheScan pm selector rest

/-- The three text selectors of step 4 (279-283). -/
def textSelectors (selector : String) : List String :=
  ["text=" ++ selector,
   "text=" ++ ⟨[quoteCh]⟩ ++ selector ++ ⟨[quoteCh]⟩,
   "[placeholder=" ++ ⟨[quoteCh]⟩ ++ selector ++ ⟨[quoteCh]⟩ ++ "]"]

/-- `elementCache.set(k, v)`: a JS `Map` overwrites the value at an
existing key in place, else appends a new entry. -/
def cacheSet (c : Cache) (k : String) (v : CacheInfo) : Cache :=
  if c.any (fun p => p.1 == k) then
    c.map (fun p => if p.1 == k then (k, v) else p)
  else c ++ [(k, v)]

/-- Selector reconstruction of `analyzePageStructure` (386-415): a direct
selector is returned as is; the (tag, text, classes) blob is rebuilt into
`tag.cls1.cls2`, the display text is cached under that selector, and for
buttons and links a `:has-text` form is returned instead.  The updated
cache is threaded through. -/
def analyzeStep (pm : PageModel) (cache : Cache) (description : String) :
    Option String × Cache :=
  match pm.analyze description with
  | none => (none, cache)
  | some (.direct sel) => (some sel, cache)
  | some (.data tag text classes) =>
    let sel0 := if classes = [] then tag
      else tag ++ "." ++ String.intercalate "." classes
    if text ≠ "" then
      let cache' := cacheSet cache sel0 ⟨text⟩
      let sel := if tag = "button" || tag = "a" then
          tag ++ ":has-text(" ++ ⟨[quoteCh]⟩ ++ text ++ ⟨[quoteCh]⟩ ++ ")"
        else sel0
      (some sel, cache')
    else (some sel0, cache)

/-- `findBestSelector` with the tier-3 candidate generator as an explicit
parameter (the source calls `this.generateAlternativeSelectors`); keeping
the generator abstract lets theorems express that a tier-2 hit never
consults it.  The element cache is threaded because tier 5 may seed it. -/
def findBestSelectorGen (altGen : String → List String) (pm : PageModel)
    (cache : Cache) (selector : String) : Option String × Cache :=
  -- Step 1: direct validity probe
  if pm.visible selector then (some selector, cache)
  else
    -- Step 2: cached selectors, only for free-text descriptions
    match (if isFreeText selector then cacheScan pm selector cache else none) with
    | some cached => (some cached, cache)
    | none =>
      -- Step 3: heuristic alternatives, probed in emitted order
      match (altGen selector).find? pm.visible with
      | some alt => (some alt, cache)
      | none =>
        -- Step 4: text-based search, only for free-text descriptions
        match (if isFreeText selector then (textSelectors selector).find? pm.visible
               else none) with
        | some ts => (some ts, cache)
        | none =>
          -- Step 5: full-page structural analysis
          analyzeStep pm cache selector

/-- `findBestSelector` as shipped (browserController.js 243-308). -/
def findBestSelector (pm : PageModel) (cache : Cache) (selector : String) :
    Option String × Cache :=
  findBestSelectorGen generateAlternativeSelectors pm cache selector

/-- The resolution pipeline with the cache-lookup tier removed; used to
express that after a navigation (empty cache) a lookup re-runs the full
remaining pipeline instead of being answered from the cache. -/
def findBestSelectorNoCacheTier (pm : PageModel) (selector : String) :
    Option String × Cache :=
  if pm.visible selector then (some selector, [])
  else
    match (generateAlternativeSelectors selector).find? pm.visible with
    | some alt => (some alt, [])
    | none =>
      match (if isFreeText selector then (textSelectors selector).find? pm.visible
             else none) with
      | some ts => (some ts, [])
      | none => analyzeStep pm [] selector

/-! ## Sessions and controller state -/

/-- One browser session as stored in `this.browsers`
(browserController.js 64-70): the live page (as an oracle), the browser
type and the creation instant. -/
structure Session where
  page : PageModel
  typ : String
  createdAt : Nat

/-- `this.browsers`, a JS `Map` in insertion order. -/
abbrev SessionStore := List (String × Session)

def lookupStore (st : SessionStore) (k : String) : Option Session :=
  (st.find? (fun p => p.1 == k)).map (fun p => p.2)

/-- JS `Map.prototype.set`: overwrite the value at an existing key
(keeping its position), else append a new entry. -/
def setEntry (st : SessionStore) (k : String) (v : Session) : SessionStore :=
  if st.any (fun p => p.1 == k) then
    st.map (fun p => if p.1 == k then (k, v) else p)
  else st ++ [(k, v)]

def removeEntry (st : SessionStore) (k : String) : SessionStore :=
  st.filter (fun p => !(p.1 == k))

/-- Controller state: session store plus the single controller-level
element cache (`this.elementCache`, browserController.js 13). -/
structure ControllerState where
  browsers : SessionStore
  elementCache : Cache

/-! ## `launchBrowser` (browserController.js 22-77) -/

/-- `const sessionId = ` the browser type and current millisecond
timestamp joined by a dash (browserController.js 24). -/
def mkSessionId (browserType : String) (nowMs : Nat) : String :=
  browserType ++ "-" ++ toString nowMs

/-- Registration step of `launchBrowser`: compute the session id from the
browser type and the current time, store the session under it
(overwriting any session already registered under that id) and return the
id.  The launched browser/context/page are external and passed in as the
session value. -/
def launchBrowser (st : ControllerState) (browserType : String) (nowMs : Nat)
    (sess : Session) : String × ControllerState :=
  let sessionId := mkSessionId browserType nowMs
  (sessionId, { st with browsers := setEntry st.browsers sessionId sess })

/-! ## `navigateTo` (browserController.js 90-143) -/

/-- Outcome of the external `page.goto` call: a thrown navigation error,
or completion with an optional response carrying final URL and status. -/
structure RespInfo where
  url : String
  status : Nat
deriving Repr, DecidableEq

inductive GotoOutcome where
  | threw (msg : String)
  | completed (resp : Option RespInfo)

/-- `if (!url.startsWith('http')) url = 'https://' + url`. -/
def normalizeUrl (url : String) : String :=
  if startsWithL url.toList "http".toList then url else "https://" ++ url

structure NavReturn where
  url : String
  status : Nat
  title : String
deriving Repr, DecidableEq

/-- `navigateTo(url, sessionId)`: look up the session (a missing session
throws, wrapped by the catch), normalize the protocol, run `page.goto`
(a thrown error is wrapped and re-thrown, skipping the cache clear), and
on success clear the controller's element cache unconditionally before
returning the final URL, status (0 when there was no response) and title.
The best-effort stabilization waits never affect the outcome. -/
def navigateTo (st : ControllerState) (url : String) (sessionId : String)
    (goto : GotoOutcome) : Except String (ControllerState × NavReturn) :=
  match lookupStore st.browsers sessionId with
  | none =>
    .error ("Failed to navigate to " ++ normalizeUrl url ++
      ": Browser session not found: " ++ sessionId)
  | some sess =>
    match goto with
    | .threw m => .error ("Failed to navigate to " ++ normalizeUrl url ++ ": " ++ m)
    | .completed resp =>
      .ok ({ st with elementCache := [] },
        { url := match resp with | some r => r.url | none => normalizeUrl url
          status := match resp with | some r => r.status | none => 0
          title := sess.page.pageTitle })

/-- `findBestSelector` as invoked against a controller state: the initial
`getSession` throws on an unknown id (`none` here); otherwise resolution
runs against the session's page and the shared controller-level cache. -/
def findBestSelectorIn (st : ControllerState) (sessionId description : String) :
    Option (Option String × Cache) :=
  (lookupStore st.browsers sessionId).map
    (fun sess => findBestSelector sess.page st.elementCache description)

/-! ## `closeBrowser` / `closeAll` (767-800) and the close command -/

/-- `closeAll` starts `closeBrowser` for every stored session id before
awaiting any of them, so every close is attempted regardless of failures
elsewhere.  `closeBrowser` deletes a session from the store only when its
`browser.close()` succeeded; `Promise.all` rejects with the first failure
(modelled as the first failing id in store order) once one close fails.
`closeErr` is the external outcome of each session's `browser.close()`. -/
def closeAllRun (st : ControllerState) (closeErr : String → Option String) :
    ControllerState × Option String :=
  let remaining := st.browsers.filter (fun p => (closeErr p.1).isSome)
  let firstErr := (st.browsers.map (fun p => p.1)).filterMap closeErr |>.head?
  ({ st with browsers := remaining },
   firstErr.map (fun m => "Failed to close all browsers: Failed to close browser: " ++ m))

structure CloseReturn where
  action : String
  target : String
deriving Repr, DecidableEq

/-- Command-parser state: controller plus the mutable active-session
pointer (`this.activeSession`). -/
structure ParserState where
  controller : ControllerState
  activeSession : Option String

/-- The `close all` branch of the command parser's `handleCloseCommand`:
`await this.browserController.closeAll(); this.activeSession = null;`.
When `closeAll` rejects, the assignment is skipped and the error
propagates — but the per-session closes that succeeded have already
mutated the shared session store. -/
def handleCloseAll (ps : ParserState) (closeErr : String → Option String) :
    ParserState × Except String CloseReturn :=
  let (controller', err) := closeAllRun ps.controller closeErr
  match err with
  | some m => ({ ps with controller := controller' }, .error m)
  | none =>
    ({ controller := controller', activeSession := none },
     .ok { action := "close", target := "all" })

/-! ## Wait handling -/

/-- JS `parseInt(s, 10)`: skip leading whitespace, optional sign, then a
decimal digit run; `NaN` (here `none`) when no digit follows. -/
def parseIntJS (s : String) : Option Int :=
  let l := s.toList.dropWhile isWsCh
  let (neg, l) :=
    match l with
    | c :: t =>
      if c = Char.ofNat 45 then (true, t)
      else if c = Char.ofNat 43 then (false, t)
      else (false, c :: t)
    | [] => (false, [])
  let digits := l.takeWhile isDigitCh
  if digits = [] then none
  else
    let n : Nat := digits.foldl (fun acc c => acc * 10 + (c.toNat - 48)) 0
    some (if neg then -(n : Int) else (n : Int))

/-- JS `x || y` on optional string fields (`undefined` and `""` are
falsy). -/
def orFalsy (x : Option String) (y : Option String) : Option String :=
  match x with
  | some s => if s = "" then y else some s
  | none => y

/-- `setTimeout(resolve, t)` delay semantics: `NaN` and negative values
behave as zero delay. -/
def setTimeoutDelay (t : Option Int) : Nat :=
  match t with
  | none => 0
  | some v => v.toNat

/-- The `wait` case of `executeAICommand` (commandParser.js 368-374):
`parseInt(aiCommand.time || aiCommand.duration || '2000', 10)` followed by
a `setTimeout` of exactly that many milliseconds — no clamping. -/
def aiWaitTime (time duration : Option String) : Option Int :=
  parseIntJS ((orFalsy (orFalsy time duration) (some "2000")).getD "2000")

/-- The actual delay performed by the oracle-path wait action. -/
def aiWaitDelay (time duration : Option String) : Nat :=
  setTimeoutDelay (aiWaitTime time duration)

/-- The unit alternation `(s|sec|seconds|ms|milliseconds)?` tried in
regex order at a given position of the (lowercased) command. -/
def waitUnitAlt (l : List Char) : Option String :=
  if startsWithL l "s".toList then some "s"
  else if startsWithL l "sec".toList then some "sec"
  else if startsWithL l "seconds".toList then some "seconds"
  else if startsWithL l "ms".toList then some "ms"
  else if startsWithL l "milliseconds".toList then some "milliseconds"
  else none

/-- `command.match(/(\d+)\s*(s|sec|seconds|ms|milliseconds)?/i)`: the
first digit run, and the unit alternative matching right after the
following whitespace, if any. -/
def matchWaitNumber (command : String) : Option (Nat × Option String) :=
  go (lowerL command.toList)
where
  go : List Char → Option (Nat × Option String)
    | [] => none
    | c :: t =>
      if isDigitCh c then
        let digits := (c :: t).takeWhile isDigitCh
        let rest := ((c :: t).drop digits.length).dropWhile isWsCh
        some (digits.foldl (fun acc d => acc * 10 + (d.toNat - 48)) 0,
              waitUnitAlt rest)
      else go t

structure WaitReturn where
  duration : Int
deriving Repr, DecidableEq

/-- `handleWaitCommand(command, options)` (the command parser's wait
handler in this repository): requires an active session, defaults the
wait time to `options.duration || 2000`, overrides it from the first
number (with optional unit) found in the command text, and caps the
result with `Math.min(waitTime, 30000)` before sleeping. -/
def handleWaitCommand (activeSession : Option String) (command : String)
    (optDuration : Option Int) : Except String WaitReturn :=
  match activeSession with
  | none => .error "No active browser session. Try \"open chrome\" first."
  | some _ =>
    let base : Int :=
      match optDuration with
      | some d => if d = 0 then 2000 else d
      | none => 2000
    let fromText : Int :=
      match matchWaitNumber command with
      | some (amount, unit) =>
        if unit = some "ms" || unit = some "milliseconds" then (amount : Int)
        else (amount : Int) * 1000
      | none => base
    .ok { duration := min fromText 30000 }

/-! ## The spec's six-tier pipeline (claim-side definition)

The specification (§4.3) describes `findBestSelector` as a six-tier
pipeline whose fifth tier is a listing-specific retry built from §4.1's
`isProductListingSelector`.  Neither that tier nor those helpers exist in
the source; the following definitions follow the spec's words so the
claimed pipeline can be compared with the shipped one. -/

/-- Modelled from the spec: `isProductListingSelector` — "regex test for
positional/listing patterns (`nth-child`, `nth-of-type`, `result-item`,
`product-card`, bare numeric item/result phrases)"; the function itself
is absent from the source. -/
def isProductListingSelector (selector : String) : Bool :=
  subStr selector "nth-child" || subStr selector "nth-of-type" ||
  subStr selector "result-item" || subStr selector "product-card" ||
  (selector.toList.any isDigitCh &&
    (containsCI selector "item" || containsCI selector "result"))

/-- Modelled from the spec: the "fixed list of known listing-container
selectors" probed by the spec's listing-specific retry tier; absent from
the source, populated from the listing patterns the spec names. -/
def listingContainers : List String :=
  [".product-card", ".result-item"]

/-- Modelled from the spec: "the positional index extracted from the
original description (defaulting to first-child)" — the first number
occurring in the description, else 1. -/
def extractPositionalIndex (description : String) : Nat :=
  match matchWaitNumber description with
  | some (n, _) => n
  | none => 1

/-- Modelled from the spec: tier 5 of §4.3 — when the description matches
the product-listing pattern, probe the known listing containers and
compose the first visible one with the extracted positional index. -/
def listingRetryTier (pm : PageModel) (description : String) : Option String :=
  if isProductListingSelector description then
    (listingContainers.find? pm.visible).map
      (fun container =>
        container ++ ":nth-child(" ++ toString (extractPositionalIndex description) ++ ")")
  else none

/-- The six-tier pipeline exactly as the spec (§4.3) claims
`findBestSelector` behaves: the shipped tiers 1-4, then the
listing-specific retry, then structural analysis. -/
def findBestSelectorSpec (pm : PageModel) (cache : Cache) (selector : String) :
    Option String :=
  if pm.visible selector then some selector
  else
    match (if isFreeText selector then cacheScan pm selector cache else none) with
    | some cached => some cached
    | none =>
      match (generateAlternativeSelectors selector).find? pm.visible with
      | some alt => some alt
      | none =>
        match (if isFreeText selector then (textSelectors selector).find? pm.visible
               else none) with
        | some ts => some ts
        | none =>
          match listingRetryTier pm selector with
          | some composed => some composed
          | none => (analyzeStep pm cache selector).1

/-! ## JSON values and a model of `JSON.parse`

The Gemini service (`extractAndRepairJSON` / `repairMalformedJSON` in the
AI service source) defensively parses oracle output.  `JsonVal` models
parsed JSON; numeric literals keep their lexeme. -/

inductive JsonVal where
  | jnull
  | jbool (b : Bool)
  | jnum (lexeme : String)
  | jstr (s : String)
  | jarr (items : List JsonVal)
  | jobj (fields : List (String × JsonVal))
deriving Repr

def isAsciiUpperCh (c : Char) : Bool :=
  Char.ofNat 65 ≤ c && c ≤ Char.ofNat 90

def isAsciiLowerCh (c : Char) : Bool :=
  Char.ofNat 97 ≤ c && c ≤ Char.ofNat 122

def isAsciiLetterCh (c : Char) : Bool :=
  isAsciiUpperCh c || isAsciiLowerCh c

/-- The identifier class `[a-zA-Z0-9_$]` of the key-quoting regex. -/
def isIdentCh (c : Char) : Bool :=
  isAsciiLetterCh c || isDigitCh c || c = Char.ofNat 95 || c = Char.ofNat 36

/-- The word class `\w` used for the `\b` boundaries. -/
def isWordCh (c : Char) : Bool :=
  isAsciiLetterCh c || isDigitCh c || c = Char.ofNat 95

def hexVal (c : Char) : Option Nat :=
  if isDigitCh c then some (c.toNat - 48)
  else if Char.ofNat 97 ≤ c && c ≤ Char.ofNat 102 then some (c.toNat - 87)
  else if Char.ofNat 65 ≤ c && c ≤ Char.ofNat 70 then some (c.toNat - 55)
  else none

/-- JSON string body after the opening quote: scan to the closing quote,
decoding escapes; raw control characters and bad escapes are rejected. -/
def parseStrBody : Nat → List Char → List Char → Option (List Char × List Char)
  | 0, _, _ => none
  | _ + 1, _, [] => none
  | fuel + 1, acc, c :: t =>
    if c = quoteCh then some (acc.reverse, t)
    else if c = backslashCh then
      match t with
      | [] => none
      | e :: t2 =>
        if e = quoteCh then parseStrBody fuel (quoteCh :: acc) t2
        else if e = backslashCh then parseStrBody fuel (backslashCh :: acc) t2
        else if e = Char.ofNat 47 then parseStrBody fuel (Char.ofNat 47 :: acc) t2
        else if e = Char.ofNat 98 then parseStrBody fuel (Char.ofNat 8 :: acc) t2
        else if e = Char.ofNat 102 then parseStrBody fuel (Char.ofNat 12 :: acc) t2
        else if e = Char.ofNat 110 then parseStrBody fuel (newlineCh :: acc) t2
        else if e = Char.ofNat 114 then parseStrBody fuel (Char.ofNat 13 :: acc) t2
        else if e = Char.ofNat 116 then parseStrBody fuel (Char.ofNat 9 :: acc) t2
        else if e = Char.ofNat 117 then
          match t2 with
          | h1 :: h2 :: h3 :: h4 :: t3 =>
            match hexVal h1, hexVal h2, hexVal h3, hexVal h4 with
            | some a, some b, some cc, some d =>
              parseStrBody fuel (Char.ofNat (((a * 16 + b) * 16 + cc) * 16 + d) :: acc) t3
            | _, _, _, _ => none
          | _ => none
        else none
    else if c.toNat < 32 then none
    else parseStrBody fuel (c :: acc) t

/-- JSON number lexeme: `-? (0 | [1-9][0-9]*) (.[0-9]+)? ([eE][+-]?[0-9]+)?`. -/
def parseNumLex (l : List Char) : Option (List Char × List Char) := do
  let (sign, l1) :=
    match l with
    | c :: t => if c = Char.ofNat 45 then ([c], t) else ([], l)
    | [] => ([], l)
  let (intPart, l2) ←
    match l1 with
    | c :: t =>
      if c = Char.ofNat 48 then some ([c], t)
      else if isDigitCh c then some (c :: t.takeWhile isDigitCh, t.dropWhile isDigitCh)
      else none
    | [] => none
  let (fracPart, l3) :=
    match l2 with
    | c :: t =>
      if c = dotCh && (t.takeWhile isDigitCh) ≠ [] then
        (c :: t.takeWhile isDigitCh, t.dropWhile isDigitCh)
      else ([], l2)
    | [] => ([], l2)
  let (expPart, l4) :=
    match l3 with
    | c :: t =>
      if c = Char.ofNat 101 || c = Char.ofNat 69 then
        let (s, t1) :=
          match t with
          | d :: t2 =>
            if d = Char.ofNat 43 || d = Char.ofNat 45 then ([d], t2) else ([], t)
          | [] => ([], t)
        if (t1.takeWhile isDigitCh) ≠ [] then
          (c :: (s ++ t1.takeWhile isDigitCh), t1.dropWhile isDigitCh)
        else ([], l3)
      else ([], l3)
    | [] => ([], l3)
  pure (sign ++ intPart ++ fracPart ++ expPart, l4)

/-- Parser mode: a whole value, the members of an object after its
opening brace, or the items of an array after its opening bracket. -/
inductive PMode where
  | val
  | objRest (acc : List (String × JsonVal))
  | arrRest (acc : List JsonVal)

/-- Recursive JSON parsing, written as a single function structurally
recursive on fuel so it evaluates by kernel reduction.  `PMode.val`
parses one value at the (whitespace-skipped) head; `PMode.objRest`
continues an object from its first key; `PMode.arrRest` continues an
array from its first item. -/
def parseStep : Nat → PMode → List Char → Option (JsonVal × List Char)
  | 0, _, _ => none
  | fuel + 1, .val, l0 =>
    let l := l0.dropWhile isWsCh
    match l with
    | [] => none
    | c :: t =>
      if c = quoteCh then
        (parseStrBody fuel [] t).map (fun p => (.jstr ⟨p.1⟩, p.2))
      else if c = braceOpenCh then
        let t' := t.dropWhile isWsCh
        match t' with
        | d :: r => if d = braceCloseCh then some (.jobj [], r)
                    else parseStep fuel (.objRest []) t'
        | [] => none
      else if c = brackOpenCh then
        let t' := t.dropWhile isWsCh
        match t' with
        | d :: r => if d = brackCloseCh then some (.jarr [], r)
                    else parseStep fuel (.arrRest []) t'
        | [] => none
      else if startsWithL l "true".toList then some (.jbool true, l.drop 4)
      else if startsWithL l "false".toList then some (.jbool false, l.drop 5)
      else if startsWithL l "null".toList then some (.jnull, l.drop 4)
      else (parseNumLex l).map (fun p => (.jnum ⟨p.1⟩, p.2))
  | fuel + 1, .objRest acc, l =>
    match l with
    | c :: t =>
      if c = quoteCh then
        match parseStrBody fuel [] t with
        | none => none
        | some (key, r1) =>
          match r1.dropWhile isWsCh with
          | d :: r2 =>
            if d = colonCh then
              match parseStep fuel .val r2 with
              | none => none
              | some (v, r3) =>
                let acc' := acc ++ [(⟨key⟩, v)]
                match r3.dropWhile isWsCh with
                | e :: r4 =>
                  if e = commaCh then parseStep fuel (.objRest acc') (r4.dropWhile isWsCh)
                  else if e = braceCloseCh then some (.jobj acc', r4)
                  else none
                | [] => none
            else none
          | [] => none
      else none
    | [] => none
  | fuel + 1, .arrRest acc, l =>
    match parseStep fuel .val l with
    | none => none
    | some (v, r1) =>
      let acc' := acc ++ [v]
      match r1.dropWhile isWsCh with
      | e :: r2 =>
        if e = commaCh then parseStep fuel (.arrRest acc') r2
        else if e = brackCloseCh then some (.jarr acc', r2)
        else none
      | [] => none

/-- One JSON value starting at the (whitespace-skipped) input head. -/
def parseVal (fuel : Nat) (l : List Char) : Option (JsonVal × List Char) :=
  parseStep fuel .val l

/-- `JSON.parse`: one value, then only trailing whitespace.  The fuel
(at most two parser steps per input character) only enforces
termination. -/
def jsonParse (s : String) : Option JsonVal :=
  match parseVal (2 * s.length + 4) s.toList with
  | some (v, rest) => if rest.dropWhile isWsCh = [] then some v else none
  | none => none

/-! ## `extractAndRepairJSON` strategies (AI service source, 703-823)
and `repairMalformedJSON` (830-885) -/

/-- Strategy 2's `responseText.match(/(\[|\{)[\s\S]*(\]|\})/)`: from the
first opening bracket or brace to the last closing one after it. -/
def regexExtractBrackets (l : List Char) : Option (List Char) :=
  match l.findIdx? (fun c => c = braceOpenCh || c = brackOpenCh) with
  | none => none
  | some i =>
    match (l.reverse.findIdx? (fun c => c = braceCloseCh || c = brackCloseCh)).map
        (fun ri => l.length - 1 - ri) with
    | none => none
    | some j => if i < j then some ((l.take (j + 1)).drop i) else none

/-- `json.replace(/```json|```/g, '')`, alternation tried left-first at
each position, resuming after each removal. -/
def stripFence : Nat → List Char → List Char
  | 0, l => l
  | fuel + 1, l =>
    if startsWithL l "```json".toList then stripFence fuel (l.drop 7)
    else if startsWithL l "```".toList then stripFence fuel (l.drop 3)
    else match l with
      | [] => []
      | c :: t => c :: stripFence fuel t

/-- JS `String.prototype.substring` (swaps its ends when reversed). -/
def substringJS (l : List Char) (a b : Nat) : List Char :=
  let lo := min a b
  let hi := max a b
  (l.take hi).drop lo

/-- Steps 3-5 of `repairMalformedJSON`: cut the text down to the span
from the first `[`/brace-open to one past the last `]`/brace-close, when
both exist. -/
def cutToBrackets (l : List Char) : List Char :=
  let startIdx :=
    match l.findIdx? (fun c => c = braceOpenCh), l.findIdx? (fun c => c = brackOpenCh) with
    | some a, some b => some (min a b)
    | some a, none => some a
    | none, some b => some b
    | none, none => none
  let endIdx :=
    let lastOf (c : Char) : Option Nat :=
      (l.reverse.findIdx? (fun d => d = c)).map (fun ri => l.length - 1 - ri)
    match lastOf braceCloseCh, lastOf brackCloseCh with
    | some a, some b => some (max a b + 1)
    | some a, none => some (a + 1)
    | none, some b => some (b + 1)
    | none, none => none
  match startIdx, endIdx with
  | some s, some e => substringJS l s e
  | _, _ => l

/-- `json.replace(/,\s*CLOSE/g, 'CLOSE')` for a closing bracket or brace:
drop the comma and whitespace, resume after the close. -/
def fixTrailingComma (close : Char) : Nat → List Char → List Char
  | 0, l => l
  | _ + 1, [] => []
  | fuel + 1, c :: t =>
    if c = commaCh then
      let k := (t.takeWhile isWsCh).length
      match t.drop k with
      | b :: r =>
        if b = close then close :: fixTrailingComma close fuel r
        else c :: fixTrailingComma close fuel t
      | [] => c :: fixTrailingComma close fuel t
    else c :: fixTrailingComma close fuel t

/-- `json.replace(/([{,]\s*)([a-zA-Z0-9_$]+)(\s*:)/g, '$1"$2"$3')`:
quote bare property names after an opening brace or comma, resuming
after the colon of each match. -/
def quoteKeys : Nat → List Char → List Char
  | 0, l => l
  | _ + 1, [] => []
  | fuel + 1, c :: t =>
    if c = braceOpenCh || c = commaCh then
      let ws := t.takeWhile isWsCh
      let afterWs := t.drop ws.length
      let ident := afterWs.takeWhile isIdentCh
      let afterId := afterWs.drop ident.length
      let ws2 := afterId.takeWhile isWsCh
      match ident, afterId.drop ws2.length with
      | _ :: _, d :: r =>
        if d = colonCh then
          c :: (ws ++ [quoteCh] ++ ident ++ [quoteCh] ++ ws2 ++ colonCh :: quoteKeys fuel r)
        else c :: quoteKeys fuel t
      | _, _ => c :: quoteKeys fuel t
    else c :: quoteKeys fuel t

/-- The final character loop of `repairMalformedJSON`: track whether the
scan is inside a string (toggling on unescaped double quotes) and turn
single quotes outside strings into double quotes. -/
def quoteLoop : Option Char → Bool → List Char → List Char
  | _, _, [] => []
  | prev, inStr, c :: t =>
    let inStr' := if c = quoteCh && prev ≠ some backslashCh then !inStr else inStr
    let emit := if c = aposCh && !inStr' then quoteCh else c
    emit :: quoteLoop (some c) inStr' t

/-- `repairMalformedJSON(malformedJson)`: strip code fences, trim, cut to
the bracketed span, remove trailing commas, quote bare keys, replace all
single quotes by double quotes, run the in-string loop, and finally
verify the result with `JSON.parse` (returning `null` when it still does
not parse). -/
def repairMalformedJSON (malformedJson : String) : Option String :=
  -- fuel: every scanner consumes at least one input character per step and
  -- no stage before `quoteKeys` lengthens the text, so the original length
  -- bounds them all
  let fuel := malformedJson.length + 1
  let l0 := malformedJson.toList
  let json0 := trimL (stripFence fuel l0)
  let json1 := cutToBrackets json0
  let json2 := fixTrailingComma brackCloseCh fuel json1
  let json3 := fixTrailingComma braceCloseCh fuel json2
  let json4 := quoteKeys fuel json3
  let json5 := json4.map (fun c => if c = aposCh then quoteCh else c)
  let result := quoteLoop none false json5
  match jsonParse ⟨result⟩ with
  | some _ => some ⟨result⟩
  | none => none

/-- Strategy 4: scan the response line by line for a full JSON object or
array on a single line. -/
def lineScan (l : List Char) : Option JsonVal :=
  go (l.splitOn newlineCh)
where
  go : List (List Char) → Option JsonVal
    | [] => none
    | line :: rest =>
      let tl := trimL line
      let bracketed :=
        (match tl.head?, tl.getLast? with
         | some a, some b =>
           (a = braceOpenCh && b = braceCloseCh) ||
           (a = brackOpenCh && b = brackCloseCh)
         | _, _ => false)
      if bracketed then
        match jsonParse ⟨tl⟩ with
        | some v => some v
        | none => go rest
      else go rest

/-- One field regex `"NAME"\s*:\s*"([^"]+)"` applied at the head of the
input. -/
def fieldPatAt (fname : List Char) (l : List Char) : Option (List Char) :=
  if startsWithL l ([quoteCh] ++ fname ++ [quoteCh]) then
    match (l.drop (fname.length + 2)).dropWhile isWsCh with
    | c :: r =>
      if c = colonCh then
        match r.dropWhile isWsCh with
        | q :: r2 =>
          if q = quoteCh then
            let cap := r2.takeWhile (fun d => d ≠ quoteCh)
            if cap ≠ [] && r2.drop cap.length ≠ [] then some cap else none
          else none
        | [] => none
      else none
    | [] => none
  else none

/-- Leftmost match of the field regex for any of the given names (tried
in alternation order at each position). -/
def findFieldAny (names : List String) : List Char → Option String
  | [] => none
  | c :: t =>
    match names.findSome? (fun n => fieldPatAt n.toList (c :: t)) with
    | some cap => some ⟨cap⟩
    | none => findFieldAny names t

/-- `/(https?:\/\/[^\s"',]+)/i` applied at the head of the input:
`http`, an optional `s`, `://`, then at least one character that is not
whitespace, a quote, an apostrophe or a comma. -/
def urlPatAt (l : List Char) : Option (List Char) :=
  if lowerL (l.take 4) = "http".toList then
    let rest := l.drop 4
    let afterScheme : Option Nat :=
      if lowerL (rest.take 1) = "s".toList &&
          startsWithL (rest.drop 1) "://".toList then some 8
      else if startsWithL rest "://".toList then some 7
      else none
    match afterScheme with
    | none => none
    | some k =>
      let body := (l.drop k).takeWhile
        (fun c => !(isWsCh c) && c ≠ quoteCh && c ≠ aposCh && c ≠ commaCh)
      if body = [] then none else some (l.take (k + body.length))
  else none

def findUrlScan : List Char → Option (List Char)
  | [] => none
  | c :: t =>
    match urlPatAt (c :: t) with
    | some m => some m
    | none => findUrlScan t

def isAlnumCI (c : Char) : Bool := isAsciiLetterCh c || isDigitCh c

/-- One domain-label group `[a-z0-9][-a-z0-9]*\.` (case-insensitive). -/
def parseDomGroup (l : List Char) : Option Nat :=
  match l with
  | c :: t =>
    if isAlnumCI c then
      let body := t.takeWhile (fun d => isAlnumCI d || d = Char.ofNat 45)
      match t.drop body.length with
      | d :: _ => if d = dotCh then some (1 + body.length + 1) else none
      | [] => none
    else none
  | [] => none

/-- Trailing `[a-z]{2,}\b`: the greedy letter run (shorter runs cannot
satisfy the boundary, as the next character would be a letter). -/
def lettersSuffix (l : List Char) : Option Nat :=
  let k := (l.takeWhile isAsciiLetterCh).length
  if 2 ≤ k then
    match (l.drop k).head? with
    | none => some k
    | some c => if isWordCh c then none else some k
  else none

/-- `([a-z0-9][-a-z0-9]*\.)* [a-z]{2,}\b` from this position, taking
groups greedily and backtracking group by group. -/
def domGroupsSuffix : Nat → List Char → Option Nat
  | 0, _ => none
  | fuel + 1, l =>
    match parseDomGroup l with
    | some g =>
      match domGroupsSuffix fuel (l.drop g) with
      | some t => some (g + t)
      | none => lettersSuffix l
    | none => lettersSuffix l

/-- The whole domain pattern (one mandatory group, then the rest). -/
def domMatchAt (l : List Char) : Option Nat :=
  match parseDomGroup l with
  | some g => (domGroupsSuffix (l.length + 1) (l.drop g)).map (fun t => g + t)
  | none => none

/-- `/\b([a-z0-9][-a-z0-9]*\.)+[a-z]{2,}\b/i`: leftmost match, with the
leading word boundary checked against the previous character. -/
def findDomainScan : Option Char → List Char → Option (List Char)
  | _, [] => none
  | prev, c :: t =>
    let boundary :=
      match prev with
      | none => true
      | some p => !(isWordCh p)
    if boundary then
      match domMatchAt (c :: t) with
      | some len => some ((c :: t).take len)
      | none => findDomainScan (some c) t
    else findDomainScan (some c) t

/-- `extractUrlFromText(text)` (AI service source, 892-911). -/
def extractUrlFromText (text : String) : Option String :=
  match findUrlScan text.toList with
  | some u => some ⟨u⟩
  | none =>
    match findDomainScan none text.toList with
    | some d => some ("https://" ++ ⟨d⟩)
    | none => none

/-- Strategy 5 (759-819): reconstruct a minimal action object from
recognizable fields of the raw response text. -/
def buildBasicAction (responseText userCommand : String) : Option JsonVal :=
  let rl := responseText.toList
  match findFieldAny ["action"] rl with
  | none => none
  | some action =>
    let base := [("action", JsonVal.jstr action)]
    let afterNav :=
      if action = "navigate" || action = "go" then
        match findFieldAny ["url"] rl with
        | some u => base ++ [("url", JsonVal.jstr u)]
        | none =>
          match extractUrlFromText responseText with
          | some u => base ++ [("url", JsonVal.jstr u)]
          | none =>
            match extractUrlFromText userCommand with
            | some u => base ++ [("url", JsonVal.jstr u)]
            | none => base ++ [("url", JsonVal.jstr "https://www.google.com")]
      else base
    let afterClick :=
      if action = "click" then
        match findFieldAny ["selector", "target"] rl with
        | some s => afterNav ++ [("selector", JsonVal.jstr s)]
        | none =>
          afterNav ++ [("selector", JsonVal.jstr
            ("button, a, [role=\x27button\x27]"))]
      else afterNav
    let afterType :=
      if action = "type" || action = "fill" || action = "input" then
        let withValue :=
          match findFieldAny ["value", "text"] rl with
          | some v => afterClick ++ [("value", JsonVal.jstr v)]
          | none => afterClick
        match findFieldAny ["selector", "field", "target"] rl with
        | some s => withValue ++ [("selector", JsonVal.jstr s)]
        | none => withValue ++ [("selector", JsonVal.jstr "input, textarea")]
      else afterClick
    some (.jobj afterType)

/-- `extractAndRepairJSON(responseText, userCommand)` (703-823): direct
parse, regex brace extraction, syntax repair, line scan, then minimal
field-extraction reconstruction; the first strategy to produce a value
wins and `null` is returned only when all five fail. -/
def extractAndRepairJSON (responseText userCommand : String) : Option JsonVal :=
  match jsonParse (trimStr responseText) with
  | some v => some v
  | none =>
    match (regexExtractBrackets responseText.toList).bind
        (fun sub => jsonParse ⟨sub⟩) with
    | some v => some v
    | none =>
      match (repairMalformedJSON responseText).bind jsonParse with
      | some v => some v
      | none =>
        match lineScan responseText.toList with
        | some v => some v
        | none => buildBasicAction responseText userCommand

/-! ## DOM model and positional selectors (spec §4.1,
`convertPositionalSelector`)

The repository source contains no `convertPositionalSelector`; the
function and the selector semantics needed to judge it are modelled from
the spec.  The DOM model is a tree of elements with tag, classes and
children; selector matching follows standard CSS semantics:
`:nth-child(k)` is "is the k-th child of its parent" and
`:nth-of-type(k)` is "is the k-th among its same-tag siblings". -/

inductive DomNode where
  | el (tag : String) (classes : List String) (children : List DomNode)
deriving Repr

def DomNode.tag : DomNode → String
  | .el t _ _ => t

def DomNode.classes : DomNode → List String
  | .el _ cs _ => cs

inductive PosKind where
  | nthChild
  | nthOfType
deriving Repr, DecidableEq

/-- The selector shape exercised by the spec's fixture:
`.CLS:nth-child(K) TAG` / `.CLS:nth-of-type(K) TAG`. -/
structure PosSel where
  cls : String
  kind : PosKind
  index : Nat
  descTag : String
deriving Repr, DecidableEq

def parsePosSel (s : String) : Option PosSel := do
  let l := s.toList
  let l ← match l with
    | c :: t => if c = dotCh then some t else none
    | [] => none
  let cls := l.takeWhile (fun c => c ≠ colonCh)
  let rest := l.drop cls.length
  let (kind, rest) ←
    if startsWithL rest ":nth-child(".toList then
      some (PosKind.nthChild, rest.drop 11)
    else if startsWithL rest ":nth-of-type(".toList then
      some (PosKind.nthOfType, rest.drop 13)
    else none
  let digits := rest.takeWhile isDigitCh
  if digits = [] then none
  else
    let rest := rest.drop digits.length
    match rest with
    | c1 :: c2 :: t =>
      if c1 = Char.ofNat 41 && c2 = Char.ofNat 32 && t ≠ [] then
        pure { cls := ⟨cls⟩
               kind := kind
               index := digits.foldl (fun acc d => acc * 10 + (d.toNat - 48)) 0
               descTag := ⟨t⟩ }
      else none
    | _ => none

/-- Replace every occurrence of `pat` by `rep`. -/
def replaceSubAll (pat rep : List Char) : Nat → List Char → List Char
  | 0, l => l
  | _ + 1, [] => []
  | fuel + 1, c :: t =>
    if pat ≠ [] && startsWithL (c :: t) pat then
      rep ++ replaceSubAll pat rep fuel ((c :: t).drop pat.length)
    else c :: replaceSubAll pat rep fuel t

/-- Modelled from the spec: `convertPositionalSelector(selector)` —
"rewrites an nth-child/nth-of-type selector into an equivalent
alternative form when the original fails to match, preserving the same
1-based index semantics"; absent from the source, modelled as the
nth-child / nth-of-type rewrite the spec's wording names. -/
def convertPositionalSelector (selector : String) : String :=
  let l := selector.toList
  if subStr selector ":nth-child(" then
    ⟨replaceSubAll ":nth-child(".toList ":nth-of-type(".toList (l.length + 1) l⟩
  else
    ⟨replaceSubAll ":nth-of-type(".toList ":nth-child(".toList (l.length + 1) l⟩

def lookupCount (counts : List (String × Nat)) (tag : String) : Nat :=
  match counts.find? (fun p => p.1 == tag) with
  | some p => p.2
  | none => 0

def bumpCount (counts : List (String × Nat)) (tag : String) : List (String × Nat) :=
  if counts.any (fun p => p.1 == tag) then
    counts.map (fun p => if p.1 == tag then (p.1, p.2 + 1) else p)
  else counts ++ [(tag, 1)]

def posMatches (ps : PosSel) (childIdx typeIdx : Nat) : Bool :=
  match ps.kind with
  | .nthChild => childIdx = ps.index
  | .nthOfType => typeIdx = ps.index

mutual

/-- Document-order search for the first element with tag `ps.descTag`
that has a strict ancestor matching `.cls:pos(k)`; `inside` records
whether such an ancestor has been passed, `childIdx`/`typeIdx` are this
node's 1-based position among all siblings and among same-tag siblings. -/
def qNode (ps : PosSel) (inside : Bool) (n : DomNode) (childIdx typeIdx : Nat) :
    Option DomNode :=
  match n with
  | .el tag classes kids =>
    if inside && tag = ps.descTag then some (.el tag classes kids)
    else
      let selfMatch := classes.contains ps.cls && posMatches ps childIdx typeIdx
      qKids ps (inside || selfMatch) kids 1 []

def qKids (ps : PosSel) (inside : Bool) :
    List DomNode → Nat → List (String × Nat) → Option DomNode
  | [], _, _ => none
  | kid :: rest, childIdx, counts =>
    let t := kid.tag
    let typeIdx := lookupCount counts t + 1
    match qNode ps inside kid childIdx typeIdx with
    | some r => some r
    | none => qKids ps inside rest (childIdx + 1) (bumpCount counts t)

end

/-- `querySelector` for the positional-selector fixture: parse the
selector and search from the root (the root itself is treated as a first
child). -/
def queryPosSel (root : DomNode) (selector : String) : Option DomNode :=
  (parsePosSel selector).bind (fun ps => qNode ps false root 1 1)

/-! ## The five tiers of the shipped pipeline, as separate functions

`findBestSelector` is written with early returns; the following tier
functions name its five stages individually so that theorems can state
the first-success-wins / null-iff-exhausted structure. -/

def tierDirect (pm : PageModel) (selector : String) : Option String :=
  if pm.visible selector then some selector else none

def tierCache (pm : PageModel) (cache : Cache) (selector : String) : Option String :=
  if isFreeText selector then cacheScan pm selector cache else none

def tierAlts (pm : PageModel) (selector : String) : Option String :=
  (generateAlternativeSelectors selector).find? pm.visible

def tierText (pm : PageModel) (selector : String) : Option String :=
  if isFreeText selector then (textSelectors selector).find? pm.visible else none

def tierAnalyze (pm : PageModel) (cache : Cache) (selector : String) : Option String :=
  (analyzeStep pm cache selector).1

/-! ## Concrete fixtures used by counterexamples and witnesses -/

/-- A page with nothing visible and no structural matches. -/
def trivialPage : PageModel :=
  { visible := fun _ => false, analyze := fun _ => none, pageTitle := "" }

/-- A stored session distinguished only by its creation instant. -/
def sessionAt (n : Nat) : Session :=
  { page := trivialPage, typ := "chromium", createdAt := n }

/-- A page on which only the known listing containers (and the composed
listing selector) probe visible. -/
def listingOnlyPage : PageModel :=
  { visible := fun s => s == ".product-card" || s == ".product-card:nth-child(2)"
    analyze := fun _ => none
    pageTitle := "" }

/-- A page on which both the bare description `button` and the cached
selector `#loginBtn` probe visible. -/
def directHitPage : PageModel :=
  { visible := fun s => s == "button" || s == "#loginBtn"
    analyze := fun _ => none
    pageTitle := "" }

/-- A page on which only the cached selector `#loginBtn` probes visible. -/
def cacheOnlyPage : PageModel :=
  { visible := fun s => s == "#loginBtn"
    analyze := fun _ => none
    pageTitle := "" }

/-- The cache entry seeded for the login button. -/
def loginCache : Cache := [("#loginBtn", { text := "Big Button" })]

/-- Controller with one open session and a populated element cache, used
to exercise `navigateTo`'s cache clearing. -/
def navFixState : ControllerState :=
  { browsers := [("chromium-1", sessionAt 1)]
    elementCache := loginCache }

/-- Parser state with three open sessions, the first being active. -/
def threeSessionState : ParserState :=
  { controller :=
      { browsers := [("a", sessionAt 1), ("b", sessionAt 2), ("c", sessionAt 3)]
        elementCache := [] }
    activeSession := some "a" }

/-- `browser.close()` outcome where only session `b`'s close throws. -/
def closeErrOnB : String → Option String :=
  fun sid => if sid == "b" then some "boom" else none

/-- Session-B page for the shared-cache scenario: only `#btn` is
visible. -/
def pageBtnOnly : PageModel :=
  { visible := fun s => s == "#btn"
    analyze := fun _ => none
    pageTitle := "" }

/-- Controller with two open sessions and a cache entry (seeded while
working in the first session) whose selector is visible on the second
session's page. -/
def twoSessionState : ControllerState :=
  { browsers :=
      [("chromium-1", sessionAt 1),
       ("chromium-2", { page := pageBtnOnly, typ := "chromium", createdAt := 2 })]
    elementCache := [("#btn", { text := "Checkout" })] }

def DomNode.children : DomNode → List DomNode
  | .el _ _ kids => kids

def hasClassB (n : DomNode) (cls : String) : Bool :=
  n.classes.contains cls

/-- Mixed fixture: the container's first child carries no `x` class, so
the 3rd `.x` sibling sits at child position 4. -/
def mixedListingDom : DomNode :=
  .el "section" []
    [.el "div" [] [],
     .el "div" ["x"] [.el "a" ["a1"] []],
     .el "div" ["x"] [.el "a" ["a2"] []],
     .el "div" ["x"] [.el "a" ["a3"] []]]

/-- One uniform listing item: a `div.x` wrapping a single anchor. -/
def listingItem (anchorClasses : List String) : DomNode :=
  .el "div" ["x"] [.el "a" anchorClasses []]

/-- Uniform fixture: every container child is a `div.x` item, so child
position and `.x`-sibling index coincide. -/
def uniformListingDom (c1 c2 c3 : List String) (rest : List (List String)) : DomNode :=
  .el "section" [] ([listingItem c1, listingItem c2, listingItem c3] ++
    rest.map listingItem)

/-! # Theorems -/

/-! ## Helper lemmas (shared) -/

theorem lookupStore_setEntry_self (st : SessionStore) (k : String) (v : Session) :
    lookupStore (setEntry st k v) k = some v := by
  unfold setEntry lookupStore
  by_cases hany : st.any (fun p => p.1 == k) = true
  · rw [if_pos hany, List.find?_map]
    have hcomp : ((fun p : String × Session => p.1 == k) ∘
        (fun p : String × Session => if p.1 == k then (k, v) else p)) =
        (fun p : String × Session => p.1 == k) := by
      funext p
      by_cases hpk : (p.1 == k) = true
      · simp [Function.comp, hpk]
      · simp [Function.comp, hpk]
    rw [hcomp]
    obtain ⟨x, hx, hpx⟩ := List.any_eq_true.mp hany
    have hsome : (st.find? (fun p => p.1 == k)).isSome := by
      rw [List.find?_isSome]
      exact ⟨x, hx, hpx⟩
    obtain ⟨q, hq⟩ := Option.isSome_iff_exists.mp hsome
    have hpq : (q.1 == k) = true := by
      have h2 := List.find?_some hq
      simpa using h2
    rw [hq]
    simp [hpq, show q.1 = k from by simpa using hpq]
  · rw [if_neg hany, List.find?_append]
    have h1 : st.find? (fun p => p.1 == k) = none := by
      rw [List.find?_eq_none]
      intro x hx hpx
      exact hany (List.any_eq_true.mpr ⟨x, hx, hpx⟩)
    rw [h1]
    simp [List.find?]

theorem lookupStore_mem (st : SessionStore) (k : String) (v : Session)
    (h : lookupStore st k = some v) : (k, v) ∈ st := by
  unfold lookupStore at h
  obtain ⟨q, hq, hqv⟩ : ∃ q, st.find? (fun p => p.1 == k) = some q ∧ q.2 = v := by
    cases hfind : st.find? (fun p => p.1 == k) with
    | none => rw [hfind] at h; cases h
    | some q =>
      rw [hfind] at h
      exact ⟨q, rfl, by injection h⟩
  have hq1 : q.1 = k := by simpa using List.find?_some hq
  have hqkv : q = (k, v) := by
    calc q = (q.1, q.2) := rfl
      _ = (k, v) := by rw [hq1, hqv]
  exact hqkv ▸ List.mem_of_find?_eq_some hq

theorem setEntry_mem_cases (st : SessionStore) (k : String) (v : Session)
    (k' : String) (w : Session) (h : (k', w) ∈ setEntry st k v) :
    (k' = k ∧ w = v) ∨ ((k', w) ∈ st ∧ (k' == k) = false) := by
  unfold setEntry at h
  by_cases hany : st.any (fun p => p.1 == k) = true
  · rw [if_pos hany] at h
    rcases List.mem_map.mp h with ⟨p, hp, hpe⟩
    by_cases hpk : (p.1 == k) = true
    · rw [if_pos hpk] at hpe
      left
      exact ⟨(congrArg Prod.fst hpe).symm, (congrArg Prod.snd hpe).symm⟩
    · rw [if_neg hpk] at hpe
      right
      refine ⟨hpe ▸ hp, ?_⟩
      rw [← show p.1 = k' from congrArg Prod.fst hpe]
      simpa using hpk
  · rw [if_neg hany] at h
    rcases List.mem_append.mp h with hl | hr
    · right
      refine ⟨hl, ?_⟩
      by_contra hbe
      apply hany
      apply List.any_eq_true.mpr
      exact ⟨(k', w), hl, by simpa using hbe⟩
    · left
      have hkv := List.mem_singleton.mp hr
      exact ⟨congrArg Prod.fst hkv, congrArg Prod.snd hkv⟩

theorem cacheScan_found (pm : PageModel) (desc : String) (cache : Cache)
    (sel : String) (info : CacheInfo) (hmem : (sel, info) ∈ cache)
    (htext : info.text ≠ "") (hsub : containsCI info.text desc = true)
    (hvis : pm.visible sel = true) :
    ∃ chosen, cacheScan pm desc cache = some chosen ∧
      ∃ info', (chosen, info') ∈ cache ∧ info'.text ≠ "" ∧
        containsCI info'.text desc = true ∧ pm.visible chosen = true := by
  induction cache with
  | nil => cases hmem
  | cons p t ih =>
    obtain ⟨a, b⟩ := p
    have hstep : cacheScan pm desc ((a, b) :: t) =
        if (decide (b.text ≠ "") && containsCI b.text desc && pm.visible a) = true
        then some a else cacheScan pm desc t := by
      simp [cacheScan]
    by_cases hc : (decide (b.text ≠ "") && containsCI b.text desc &&
        pm.visible a) = true
    · refine ⟨a, ?_, b, List.mem_cons_self _ _, ?_⟩
      · rw [hstep, if_pos hc]
      · simp only [Bool.and_eq_true, decide_eq_true_eq] at hc
        exact ⟨hc.1.1, hc.1.2, hc.2⟩
    · rcases List.mem_cons.mp hmem with he | ht
      · exfalso
        apply hc
        injection he with h1 h2
        rw [show b = info from h2.symm, show a = sel from h1.symm]
        simp only [Bool.and_eq_true, decide_eq_true_eq]
        exact ⟨⟨htext, hsub⟩, hvis⟩
      · rcases ih ht with ⟨chosen, hscan, info', hmem', hrest⟩
        refine ⟨chosen, ?_, info', List.mem_cons_of_mem _ hmem', hrest⟩
        rw [hstep, if_neg hc]
        exact hscan

theorem navigateTo_ok_clears (st : ControllerState) (url sessionId : String)
    (goto : GotoOutcome) (st' : ControllerState) (r : NavReturn)
    (h : navigateTo st url sessionId goto = .ok (st', r)) :
    st'.elementCache = [] := by
  unfold navigateTo at h
  cases hls : lookupStore st.browsers sessionId with
  | none => rw [hls] at h; exact Except.noConfusion h
  | some sess =>
    rw [hls] at h
    cases goto with
    | threw m => exact Except.noConfusion h
    | completed resp =>
      injection h with h
      have h1 : ({ browsers := st.browsers, elementCache := [] } :
          ControllerState) = st' := congrArg Prod.fst h
      rw [← h1]

theorem cacheHit_resolves (pm : PageModel) (cache : Cache) (desc chosen : String)
    (hdirect : pm.visible desc = false) (hfree : isFreeText desc = true)
    (hscan : cacheScan pm desc cache = some chosen) :
    ∀ altGen, findBestSelectorGen altGen pm cache desc = (some chosen, cache) := by
  intro altGen
  unfold findBestSelectorGen
  rw [if_neg (by rw [hdirect]; exact Bool.false_ne_true)]
  rw [if_pos hfree, hscan]

/-! ## C1 — resolution pipeline structure -/

/-- C1 counterexample: on a page where only the known listing-container
selectors are visible and with the listing-patterned free-text
description `2nd result`, the shipped `findBestSelector` exhausts its
tiers and returns null, while the claimed six-tier pipeline (with the
spec's listing-specific retry as tier 5) returns the composed listing
selector — so `findBestSelector` does not run the claimed six tiers and
null is not returned only when every claimed tier is exhausted. -/
theorem c1_counterexample :
    isProductListingSelector "2nd result" = true ∧
    (findBestSelector listingOnlyPage [] "2nd result").1 = none ∧
    findBestSelectorSpec listingOnlyPage [] "2nd result" =
      some ".product-card:nth-child(2)" := by
  refine ⟨rfl, rfl, rfl⟩

/-- C1 amended: `findBestSelector` runs a FIVE-tier priority pipeline —
direct validity probe, cache lookup, heuristic alternatives, text-based
search, then full-page structural analysis, with no listing-specific
retry tier — where the first tier yielding a visible match wins, later
tiers run only when every earlier tier found nothing, and null is
returned exactly when all five tiers are exhausted. -/
theorem c1_five_tier_pipeline (pm : PageModel) (cache : Cache) (selector : String) :
    (findBestSelector pm cache selector).1 =
      (((((tierDirect pm selector).orElse
        (fun _ => tierCache pm cache selector)).orElse
        (fun _ => tierAlts pm selector)).orElse
        (fun _ => tierText pm selector)).orElse
        (fun _ => tierAnalyze pm cache selector)) ∧
    ((findBestSelector pm cache selector).1 = none ↔
      tierDirect pm selector = none ∧ tierCache pm cache selector = none ∧
      tierAlts pm selector = none ∧ tierText pm selector = none ∧
      tierAnalyze pm cache selector = none) := by
  unfold findBestSelector findBestSelectorGen tierDirect tierCache tierAlts
    tierText tierAnalyze
  cases hv : pm.visible selector with
  | true => simp [Option.orElse]
  | false =>
    simp only [Bool.false_eq_true, if_false]
    cases hc : (if isFreeText selector then cacheScan pm selector cache else none) with
    | some cached => simp [Option.orElse]
    | none =>
      simp only
      cases ha : (generateAlternativeSelectors selector).find? pm.visible with
      | some alt => simp [Option.orElse]
      | none =>
        simp only
        cases ht : (if isFreeText selector
            then (textSelectors selector).find? pm.visible else none) with
        | some ts => simp [Option.orElse]
        | none =>
          simp only [Option.orElse]
          cases han : (analyzeStep pm cache selector) with
          | mk fst snd => cases fst <;> simp

/-! ## C2 — navigation clears the element cache -/

/-- C2: whenever `navigateTo` returns normally the element cache is
empty, so the cache-lookup tier of a subsequent identical free-text
lookup yields nothing and resolution equals the pipeline with the cache
tier removed — the full pipeline is re-run instead of being answered
from the cache. -/
theorem c2_navigation_clears_cache (st : ControllerState) (url sessionId : String)
    (goto : GotoOutcome) (st' : ControllerState) (r : NavReturn)
    (h : navigateTo st url sessionId goto = .ok (st', r)) :
    st'.elementCache = [] ∧
    (∀ pm desc, tierCache pm st'.elementCache desc = none) ∧
    (∀ pm desc, findBestSelector pm st'.elementCache desc =
      findBestSelectorNoCacheTier pm desc) := by
  have hcache := navigateTo_ok_clears st url sessionId goto st' r h
  refine ⟨hcache, ?_, ?_⟩
  · intro pm desc
    unfold tierCache
    rw [hcache]
    cases hft : isFreeText desc <;> simp [cacheScan]
  · intro pm desc
    unfold findBestSelector findBestSelectorGen findBestSelectorNoCacheTier
    rw [hcache]
    cases hft : isFreeText desc <;> cases hv : pm.visible desc <;>
      simp [hft, hv, cacheScan]

/-- C2 witness: the theorem applied to a one-session controller with a
populated cache navigating to `example.com`; the resulting cache is
empty. -/
theorem c2_witness :
    ControllerState.elementCache
      { browsers := navFixState.browsers, elementCache := [] } = [] :=
  (c2_navigation_clears_cache navFixState "example.com" "chromium-1"
    (GotoOutcome.completed none)
    { browsers := navFixState.browsers, elementCache := [] }
    { url := "https://example.com", status := 0, title := "" } (by rfl)).1

/-! ## C3 — cache-lookup short-circuit -/

/-- C3 counterexample: for the free-text input `button`, the cache holds
an entry (`#loginBtn`, stored text `Big Button`) that matches the input
case-insensitively and probes visible — yet `findBestSelector` returns
`button` itself (the tier-1 direct probe wins), not the cached selector,
refuting the claim as stated. -/
theorem c3_counterexample :
    isFreeText "button" = true ∧
    containsCI "Big Button" "button" = true ∧
    directHitPage.visible "#loginBtn" = true ∧
    (findBestSelector directHitPage loginCache "button").1 = some "button" ∧
    (findBestSelector directHitPage loginCache "button").1 ≠ some "#loginBtn" := by
  refine ⟨rfl, rfl, rfl, rfl, ?_⟩
  intro h
  rw [show (findBestSelector directHitPage loginCache "button").1 =
    some "button" from rfl] at h
  injection h with h
  exact absurd h (by decide)

/-- C3 amended: provided the tier-1 direct probe of the free-text input
fails, if some cache entry's stored text contains the input
case-insensitively and its selector probes visible, then resolution
returns such a cached selector (the first one in cache order) with the
cache unchanged, for EVERY tier-3 candidate generator — i.e. the
heuristic-alternatives generator is never consulted. -/
theorem c3_cache_shortcircuit (pm : PageModel) (cache : Cache) (desc : String)
    (sel : String) (info : CacheInfo)
    (hfree : isFreeText desc = true)
    (hdirect : pm.visible desc = false)
    (hmem : (sel, info) ∈ cache) (htext : info.text ≠ "")
    (hsub : containsCI info.text desc = true) (hvis : pm.visible sel = true) :
    ∃ chosen,
      (∀ altGen, findBestSelectorGen altGen pm cache desc = (some chosen, cache)) ∧
      ∃ info', (chosen, info') ∈ cache ∧ info'.text ≠ "" ∧
        containsCI info'.text desc = true ∧ pm.visible chosen = true := by
  rcases cacheScan_found pm desc cache sel info hmem htext hsub hvis with
    ⟨chosen, hscan, hrest⟩
  exact ⟨chosen, cacheHit_resolves pm cache desc chosen hdirect hfree hscan, hrest⟩

/-- C3 witness: the theorem applied to a page where only `#loginBtn` is
visible and the cache holds (`#loginBtn`, `Big Button`); resolving
`button` returns the cached selector for every generator. -/
theorem c3_witness :
    ∃ chosen,
      (∀ altGen, findBestSelectorGen altGen cacheOnlyPage loginCache "button" =
        (some chosen, loginCache)) ∧
      ∃ info', (chosen, info') ∈ loginCache ∧ info'.text ≠ "" ∧
        containsCI info'.text "button" = true ∧
        cacheOnlyPage.visible chosen = true :=
  c3_cache_shortcircuit cacheOnlyPage loginCache "button" "#loginBtn"
    { text := "Big Button" } rfl rfl (List.mem_singleton.mpr rfl)
    (by decide) rfl rfl

/-! ## C4 — probe error absorption -/

/-- C4: `isElementVisible` maps every thrown page-query error (unknown
session, malformed selector, failing visibility check) to `false` and
never propagates it: whenever its try-body throws, the result is
`false`; a `true` result only arises from an actual visible element; and
a candidate whose probe throws is simply skipped, the scan proceeding
with the remaining candidates. -/
theorem c4_probe_never_throws (o : ProbeOutcome) :
    (∀ m, isElementVisibleBody o = .error m → isElementVisible o = false) ∧
    (isElementVisible o = true → isElementVisibleBody o = .ok true) ∧
    (∀ (outcomes : String → ProbeOutcome) (c : String) (rest : List String)
      (m : String), isElementVisibleBody (outcomes c) = .error m →
      (c :: rest).find? (fun s => isElementVisible (outcomes s)) =
        rest.find? (fun s => isElementVisible (outcomes s))) := by
  refine ⟨?_, ?_, ?_⟩
  · intro m h
    unfold isElementVisible
    rw [h]
  · intro h
    cases hb : isElementVisibleBody o with
    | ok b =>
      unfold isElementVisible at h
      rw [hb] at h
      have hbt : b = true := by simpa using h
      rw [hbt]
    | error m =>
      unfold isElementVisible at h
      rw [hb] at h
      simp at h
  · intro outcomes c rest m h
    have hfalse : isElementVisible (outcomes c) = false := by
      unfold isElementVisible
      rw [h]
    exact List.find?_cons_of_neg rest (by simp [hfalse])

/-- C4 witness: the theorem applied to a malformed-selector query error;
the probe reports `false`. -/
theorem c4_witness :
    isElementVisible (ProbeOutcome.queryErr "malformed selector") = false :=
  (c4_probe_never_throws (ProbeOutcome.queryErr "malformed selector")).1
    "malformed selector" rfl

/-! ## C7 — per-session cache isolation -/

/-- C7 counterexample: with two concurrently open sessions and a cache
entry seeded while working in the first, a free-text lookup in the
SECOND session is answered from that entry, and a navigation in the
FIRST session empties the whole cache — so entries are neither private
to the session that created them nor preserved across another session's
navigation. -/
theorem c7_counterexample :
    (lookupStore twoSessionState.browsers "chromium-2").isSome = true ∧
    cacheScan pageBtnOnly "checkout" twoSessionState.elementCache = some "#btn" ∧
    findBestSelectorIn twoSessionState "chromium-2" "checkout" =
      some (some "#btn", twoSessionState.elementCache) ∧
    navigateTo twoSessionState "https://shop.example" "chromium-1"
      (GotoOutcome.completed none) =
      .ok ({ browsers := twoSessionState.browsers, elementCache := [] },
        { url := "https://shop.example", status := 0, title := "" }) ∧
    twoSessionState.elementCache ≠ [] := by
  refine ⟨rfl, rfl, rfl, rfl, ?_⟩
  intro h
  exact List.noConfusion h

/-- C7 amended: the element cache is a single controller-level map
shared by all sessions: a free-text lookup in ANY open session whose
page fails the direct probe is answered from any matching visible entry
of the shared cache (no matter which session seeded it), and a
successful navigation in ANY session empties the cache for every
session. -/
theorem c7_shared_cache (st : ControllerState) (sidB : String) (sessB : Session)
    (desc sel : String) (info : CacheInfo)
    (hlook : lookupStore st.browsers sidB = some sessB)
    (hfree : isFreeText desc = true)
    (hdirect : sessB.page.visible desc = false)
    (hmem : (sel, info) ∈ st.elementCache) (htext : info.text ≠ "")
    (hsub : containsCI info.text desc = true)
    (hvis : sessB.page.visible sel = true) :
    (∃ chosen, findBestSelectorIn st sidB desc =
        some (some chosen, st.elementCache) ∧
      ∃ info', (chosen, info') ∈ st.elementCache) ∧
    (∀ sidA url goto st' r, navigateTo st url sidA goto = .ok (st', r) →
      st'.elementCache = []) := by
  constructor
  · rcases cacheScan_found sessB.page desc st.elementCache sel info hmem htext
      hsub hvis with ⟨chosen, hscan, info', hmem', _⟩
    refine ⟨chosen, ?_, info', hmem'⟩
    unfold findBestSelectorIn
    rw [hlook]
    show some (findBestSelector sessB.page st.elementCache desc) =
      some (some chosen, st.elementCache)
    unfold findBestSelector
    rw [cacheHit_resolves sessB.page st.elementCache desc chosen hdirect hfree
      hscan generateAlternativeSelectors]
  · intro sidA url goto st' r h
    exact navigateTo_ok_clears st url sidA goto st' r h

/-- C7 witness: the theorem applied to the two-session fixture. -/
theorem c7_witness :
    ∃ chosen, findBestSelectorIn twoSessionState "chromium-2" "checkout" =
        some (some chosen, twoSessionState.elementCache) ∧
      ∃ info', (chosen, info') ∈ twoSessionState.elementCache :=
  (c7_shared_cache twoSessionState "chromium-2"
    { page := pageBtnOnly, typ := "chromium", createdAt := 2 }
    "checkout" "#btn" { text := "Checkout" } (by rfl) rfl rfl
    (List.mem_singleton.mpr rfl) (by decide) rfl rfl).1

/-! ## C5 — wait-duration clamping -/

/-- C5 counterexample: the oracle-path wait (`executeAICommand`, case
`'wait'`) does not clamp: an oracle command with `duration` field
`"120000"` performs a delay of 120000 ms, exceeding the claimed 30000 ms
ceiling, so clamping does not hold "regardless of the source". -/
theorem c5_counterexample :
    aiWaitDelay none (some "120000") = 120000 ∧
    ¬(aiWaitDelay none (some "120000") ≤ 30000) := by
  constructor
  · rfl
  · decide

/-- C5 amended: only the text-command wait handler clamps — for every
active session, command text and optional oracle duration,
`handleWaitCommand` returns a wait duration of at most 30000 ms; the
oracle-path wait in `executeAICommand` performs the parsed requested
duration unclamped. -/
theorem c5_wait_clamped (activeSession : Option String) (command : String)
    (optDuration : Option Int) (r : WaitReturn)
    (h : handleWaitCommand activeSession command optDuration = .ok r) :
    r.duration ≤ 30000 := by
  unfold handleWaitCommand at h
  cases activeSession with
  | none => cases h
  | some sid =>
    simp only at h
    injection h with h
    rw [← h]
    exact min_le_right _ _

/-- C5 witness: the theorem applied to the concrete command
`wait 120000 ms`, whose clamped duration is exactly 30000 ms. -/
theorem c5_witness :
    WaitReturn.duration { duration := 30000 } ≤ 30000 :=
  c5_wait_clamped (some "chromium-1") "wait 120000 ms" none
    { duration := 30000 } (by rfl)

/-! ## C6 — close-all robustness -/

/-- C6: evaluating the close-all command on three open sessions where
session `b`'s `browser.close()` throws: sessions `a` and `c` are still
closed (only `b` remains in the store), but the whole command rejects
with the first failure and the active-session pointer is NOT cleared —
contradicting the claimed behaviour that the pointer is null afterwards
even if one close throws. -/
theorem c6_close_all_failure :
    (handleCloseAll threeSessionState closeErrOnB).1.activeSession = some "a" ∧
    (handleCloseAll threeSessionState closeErrOnB).1.activeSession ≠ none ∧
    ((handleCloseAll threeSessionState closeErrOnB).1.controller.browsers.map
      (fun p => p.1)) = ["b"] ∧
    (handleCloseAll threeSessionState closeErrOnB).2 =
      .error "Failed to close all browsers: Failed to close browser: boom" := by
  refine ⟨rfl, ?_, rfl, rfl⟩
  intro h
  rw [show (handleCloseAll threeSessionState closeErrOnB).1.activeSession =
    some "a" from rfl] at h
  cases h

/-! ## C8 — oracle JSON repair -/

/-- C8: on the oracle response `Sure! {action: 'click', selector:
'button',}` (leading prose, unquoted keys, single quotes, trailing
comma) the extraction-and-repair pipeline yields exactly the object
with `action = "click"` and `selector = "button"`; the first two
strategies fail and the syntax-repair strategy produces it. -/
theorem c8_json_repair :
    extractAndRepairJSON "Sure! \x7baction: \x27click\x27, selector: \x27button\x27,\x7d" "" =
      some (JsonVal.jobj
        [("action", JsonVal.jstr "click"), ("selector", JsonVal.jstr "button")]) := by
  rfl

/-! ## C9 — positional-selector conversion -/

/-- C9 counterexample: a DOM whose container has a classless first child
followed by three `.x` siblings.  `.x:nth-child(3)` selects the element
at child position 3 — the SECOND `.x` sibling — and the converted
selector preserves exactly that, matching the second sibling's anchor
(`a2`), not the third sibling's anchor (`a3`), although this DOM has at
least 3 matching siblings. -/
theorem c9_counterexample :
    ((mixedListingDom.children.filter (fun n => hasClassB n "x")).length = 3) ∧
    queryPosSel mixedListingDom (convertPositionalSelector ".x:nth-child(3) a") =
      some (DomNode.el "a" ["a2"] []) ∧
    queryPosSel mixedListingDom (convertPositionalSelector ".x:nth-child(3) a") ≠
      some (DomNode.el "a" ["a3"] []) := by
  refine ⟨rfl, rfl, ?_⟩
  intro h
  rw [show queryPosSel mixedListingDom (convertPositionalSelector ".x:nth-child(3) a") =
    some (DomNode.el "a" ["a2"] []) from rfl] at h
  simp at h

/-- C9 amended (spec-modelled): on uniform fixtures — every container
child is a `div.x` item wrapping one anchor, with at least three items —
the conversion of `.x:nth-child(3) a` matches the third item's anchor,
preserving the 1-based index; the unrestricted claim fails because
`:nth-child` counts all siblings, not just the `.x` ones. -/
theorem c9_uniform_preserves_index (c1 c2 c3 : List String)
    (rest : List (List String)) :
    queryPosSel (uniformListingDom c1 c2 c3 rest)
      (convertPositionalSelector ".x:nth-child(3) a") =
      some (DomNode.el "a" c3 []) := by
  rfl

/-! ## C10 — session-id collisions -/

/-- C10: session ids are the browser type plus the millisecond
timestamp, so two launches of the same type in the same millisecond get
the same id; the second registration overwrites the first in the
session store, leaving the first session unreachable under any key. -/
theorem c10_session_id_collision (st : ControllerState) (browserType : String)
    (nowMs : Nat) (s1 s2 : Session) (hne : s1 ≠ s2)
    (hfresh : ∀ k v, (k, v) ∈ st.browsers → v ≠ s1) :
    (launchBrowser st browserType nowMs s1).1 =
      (launchBrowser (launchBrowser st browserType nowMs s1).2 browserType nowMs s2).1 ∧
    lookupStore
      (launchBrowser (launchBrowser st browserType nowMs s1).2 browserType nowMs s2).2.browsers
      (mkSessionId browserType nowMs) = some s2 ∧
    ∀ k, lookupStore
      (launchBrowser (launchBrowser st browserType nowMs s1).2 browserType nowMs s2).2.browsers
      k ≠ some s1 := by
  refine ⟨rfl, ?_, ?_⟩
  · exact lookupStore_setEntry_self _ _ _
  · intro k hk
    have hmem := lookupStore_mem _ _ _ hk
    rcases setEntry_mem_cases _ _ _ _ _ hmem with ⟨_, h1⟩ | ⟨h2, hne2⟩
    · exact hne h1
    · rcases setEntry_mem_cases _ _ _ _ _ h2 with ⟨hkeq, _⟩ | ⟨h4, _⟩
      · rw [hkeq] at hne2
        simp at hne2
      · exact hfresh k s1 h4 rfl

/-- C10 witness: the theorem applied to an empty store and two sessions
distinguished by their creation instants. -/
theorem c10_witness :
    lookupStore
      (launchBrowser
        (launchBrowser { browsers := [], elementCache := [] } "chromium" 42 (sessionAt 1)).2
        "chromium" 42 (sessionAt 2)).2.browsers "chromium-42" ≠ some (sessionAt 1) :=
  (c10_session_id_collision { browsers := [], elementCache := [] } "chromium" 42
    (sessionAt 1) (sessionAt 2)
    (fun h => absurd (congrArg Session.createdAt h) (by decide))
    (fun k v h => absurd h (List.not_mem_nil (k, v)))).2.2 "chromium-42"

end BrowseByMe
